import Mathlib

/-!
Shallow embedding of `oddt/interactions.py`: non-covalent interaction
detectors built from a proximity join (`close_contacts`) and an angular
strictness classifier (source `_check_angles`, here `check_angles`).

The external collaborators imported from `oddt.spatial` (`distance`,
`angle`, `angle_2v`) are modelled as function parameters of the detectors.
A measured angle is an `Option ℚ`, with `none` playing the role of the
floating-point NaN sentinel produced for missing or degenerate neighbors.
The NumPy semantics that matter here are modelled explicitly:
`np.nan_to_num` maps NaN to `0` (`nan_to_num`), every comparison against
NaN is false (`optGT`/`optLT`), and `np.take` in its default bounds-checked
mode raises on any out-of-range index (`takeIdeals` returning `none`);
a detector call that would raise is an `Option` result of `none`.
-/

namespace Oddt

/-- A 3D point or direction vector with rational coordinates. -/
structure Vec3 where
  x : ℚ
  y : ℚ
  z : ℚ
deriving DecidableEq

instance : Add Vec3 := ⟨fun a b => ⟨a.x + b.x, a.y + b.y, a.z + b.z⟩⟩

instance : Sub Vec3 := ⟨fun a b => ⟨a.x - b.x, a.y - b.y, a.z - b.z⟩⟩

/-- One row of `atom_dict`: coordinates, NaN-padded neighbor slots (a padded
slot is `none`), hybridization code, and the boolean property flags used by
the detectors. -/
structure Atom where
  coords : Vec3
  neighbors : List (Option Vec3)
  hybridization : Nat
  isacceptor : Bool
  isdonor : Bool
  ishalogen : Bool
  isplus : Bool
  isminus : Bool
  ishydrophobe : Bool
  ismetal : Bool
deriving DecidableEq

/-- One row of `ring_dict`: ring centroid and ring-normal vector. -/
structure Ring where
  centroid : Vec3
  vector : Vec3
deriving DecidableEq

/-- The part of an `oddt.toolkit.Molecule` the detectors read. -/
structure Molecule where
  atom_dict : List Atom
  ring_dict : List Ring
deriving DecidableEq

/-- Source `BASE_ANGLES`: ideal angles (degrees) indexed by hybridization code. -/
def BASE_ANGLES : List ℚ := [0, 180, 120, 109.5, 90]

/-- NumPy `np.nan_to_num` on one measured angle: the NaN sentinel becomes `0`. -/
def nan_to_num (a : Option ℚ) : ℚ := a.getD 0

/-- One row of the comparison in source `_check_angles`: after `nan_to_num`,
does at least one neighbor-slot angle lie strictly inside
`(ideal - tolerance, ideal + tolerance)`?  This is the `.any(axis=-1)`. -/
def checkRow (row : List (Option ℚ)) (ideal tolerance : ℚ) : Bool :=
  row.any (fun a =>
    decide (ideal - tolerance < nan_to_num a) && decide (nan_to_num a < ideal + tolerance))

/-- NumPy `np.take(BASE_ANGLES, hybridizations)` in its default bounds-checked
mode: any out-of-range hybridization code makes the whole lookup raise,
modelled by `none`. -/
def takeIdeals : List Nat → Option (List ℚ)
  | [] => some []
  | h :: t =>
    match BASE_ANGLES.get? h, takeIdeals t with
    | some i, some r => some (i :: r)
    | _, _ => none

/-- Ideal angle of a valid hybridization code (defaults to `0` out of range;
only used under a validity hypothesis). -/
def idealOf (h : Nat) : ℚ := (BASE_ANGLES.get? h).getD 0

/-- Source `_check_angles(angles, hybridizations, tolerance)`: per pair, true
iff at least one neighbor-slot angle lies strictly inside the tolerance band
around the ideal angle of the pair's hybridization code.  `angless` has one
row of neighbor-slot angles per pair, aligned with `hybridizations`. -/
def check_angles (angless : List (List (Option ℚ))) (hybridizations : List Nat)
    (tolerance : ℚ) : Option (List Bool) :=
  (takeIdeals hybridizations).map
    (fun ideal_angles =>
      List.zipWith (fun row ideal => checkRow row ideal tolerance) angless ideal_angles)

/-- Source `close_contacts(x, y, cutoff, cutoff_low)`: all pairs whose distance
lies in the window `(cutoff_low, cutoff]`, in row-major order.  The external
`oddt.spatial.distance` (together with the `x_column`/`y_column` coordinate
selection) is the parameter `d`.  The guard tests `x` twice, as in the source
(line 59 of `interactions.py` checks `len(x[x_column])` in both conjuncts). -/
def close_contacts {α β : Type} (d : α → β → ℚ) (x : List α) (y : List β)
    (cutoff cutoff_low : ℚ) : List (α × β) :=
  if 0 < x.length ∧ 0 < x.length then
    x.flatMap (fun a =>
      y.filterMap (fun b =>
        if cutoff_low < d a b ∧ d a b ≤ cutoff then some (a, b) else none))
  else []

/-- Comparison `a > c` with NumPy NaN semantics: false when `a` is NaN. -/
def optGT (a : Option ℚ) (c : ℚ) : Bool :=
  match a with
  | some v => decide (c < v)
  | none => false

/-- Comparison `a < c` with NumPy NaN semantics: false when `a` is NaN. -/
def optLT (a : Option ℚ) (c : ℚ) : Bool :=
  match a with
  | some v => decide (v < c)
  | none => false

/-- Angles at `vertex` between the ray to `outer` and the ray to each neighbor
slot, one per slot; a padded (missing) slot yields the NaN sentinel, and the
external `oddt.spatial.angle` itself (parameter `angl`) may yield it for
degenerate geometry. -/
def neighbor_angles (angl : Vec3 → Vec3 → Vec3 → Option ℚ) (outer vertex : Vec3)
    (neighbors : List (Option Vec3)) : List (Option ℚ) :=
  neighbors.map (fun n => n.bind (fun nb => angl outer vertex nb))

/-- The candidate acceptor/donor pairs of `hbond_acceptor_donor`. -/
def hbond_pairs (dist : Vec3 → Vec3 → ℚ) (mol1 mol2 : Molecule) (cutoff : ℚ) :
    List (Atom × Atom) :=
  close_contacts (fun p q => dist p.coords q.coords)
    (mol1.atom_dict.filter (fun p => p.isacceptor))
    (mol2.atom_dict.filter (fun q => q.isdonor)) cutoff 0

/-- The strict flag of one acceptor/donor pair: the acceptor-side angular check
(donor against the acceptor's neighbors and hybridization) AND the donor-side
angular check (acceptor against the donor's neighbors and hybridization). -/
def hbond_strict_pair (angl : Vec3 → Vec3 → Vec3 → Option ℚ) (pq : Atom × Atom)
    (tolerance : ℚ) : Bool :=
  checkRow (neighbor_angles angl pq.2.coords pq.1.coords pq.1.neighbors)
      (idealOf pq.1.hybridization) tolerance &&
  checkRow (neighbor_angles angl pq.1.coords pq.2.coords pq.2.neighbors)
      (idealOf pq.2.hybridization) tolerance

/-- Source `hbond_acceptor_donor(mol1, mol2, cutoff=3.5, tolerance=30)`. -/
def hbond_acceptor_donor (dist : Vec3 → Vec3 → ℚ) (angl : Vec3 → Vec3 → Vec3 → Option ℚ)
    (mol1 mol2 : Molecule) (cutoff tolerance : ℚ) :
    Option (List Atom × List Atom × List Bool) :=
  if 0 < ((hbond_pairs dist mol1 mol2 cutoff).map Prod.fst).length ∧
      0 < ((hbond_pairs dist mol1 mol2 cutoff).map Prod.snd).length then
    match
      check_angles
        ((hbond_pairs dist mol1 mol2 cutoff).map (fun pq =>
          neighbor_angles angl pq.2.coords pq.1.coords pq.1.neighbors))
        (((hbond_pairs dist mol1 mol2 cutoff).map Prod.fst).map Atom.hybridization)
        tolerance,
      check_angles
        ((hbond_pairs dist mol1 mol2 cutoff).map (fun pq =>
          neighbor_angles angl pq.1.coords pq.2.coords pq.2.neighbors))
        (((hbond_pairs dist mol1 mol2 cutoff).map Prod.snd).map Atom.hybridization)
        tolerance with
    | some s1, some s2 =>
        some ((hbond_pairs dist mol1 mol2 cutoff).map Prod.fst,
              (hbond_pairs dist mol1 mol2 cutoff).map Prod.snd,
              List.zipWith (fun u v => u && v) s1 s2)
    | _, _ => none
  else
    some ((hbond_pairs dist mol1 mol2 cutoff).map Prod.fst,
          (hbond_pairs dist mol1 mol2 cutoff).map Prod.snd, ([] : List Bool))

/-- Source `hbonds(mol1, mol2, ...)`: both directions of
`hbond_acceptor_donor`, concatenated so the first array is mol1-side. -/
def hbonds (dist : Vec3 → Vec3 → ℚ) (angl : Vec3 → Vec3 → Vec3 → Option ℚ)
    (mol1 mol2 : Molecule) (cutoff tolerance : ℚ) :
    Option (List Atom × List Atom × List Bool) :=
  match hbond_acceptor_donor dist angl mol1 mol2 cutoff tolerance,
        hbond_acceptor_donor dist angl mol2 mol1 cutoff tolerance with
  | some (a1, d1, s1), some (a2, d2, s2) => some (a1 ++ d2, d1 ++ a2, s1 ++ s2)
  | _, _ => none

/-- The candidate acceptor/halogen pairs of `halogenbond_acceptor_halogen`. -/
def halogen_pairs (dist : Vec3 → Vec3 → ℚ) (mol1 mol2 : Molecule) (cutoff : ℚ) :
    List (Atom × Atom) :=
  close_contacts (fun p q => dist p.coords q.coords)
    (mol1.atom_dict.filter (fun p => p.isacceptor))
    (mol2.atom_dict.filter (fun q => q.ishalogen)) cutoff 0

/-- Source `halogenbond_acceptor_halogen(mol1, mol2, tolerance=30, cutoff=4)`;
its body is the same shape as `hbond_acceptor_donor` with the halogen subset. -/
def halogenbond_acceptor_halogen (dist : Vec3 → Vec3 → ℚ)
    (angl : Vec3 → Vec3 → Vec3 → Option ℚ) (mol1 mol2 : Molecule)
    (tolerance cutoff : ℚ) : Option (List Atom × List Atom × List Bool) :=
  if 0 < ((halogen_pairs dist mol1 mol2 cutoff).map Prod.fst).length ∧
      0 < ((halogen_pairs dist mol1 mol2 cutoff).map Prod.snd).length then
    match
      check_angles
        ((halogen_pairs dist mol1 mol2 cutoff).map (fun pq =>
          neighbor_angles angl pq.2.coords pq.1.coords pq.1.neighbors))
        (((halogen_pairs dist mol1 mol2 cutoff).map Prod.fst).map Atom.hybridization)
        tolerance,
      check_angles
        ((halogen_pairs dist mol1 mol2 cutoff).map (fun pq =>
          neighbor_angles angl pq.1.coords pq.2.coords pq.2.neighbors))
        (((halogen_pairs dist mol1 mol2 cutoff).map Prod.snd).map Atom.hybridization)
        tolerance with
    | some s1, some s2 =>
        some ((halogen_pairs dist mol1 mol2 cutoff).map Prod.fst,
              (halogen_pairs dist mol1 mol2 cutoff).map Prod.snd,
              List.zipWith (fun u v => u && v) s1 s2)
    | _, _ => none
  else
    some ((halogen_pairs dist mol1 mol2 cutoff).map Prod.fst,
          (halogen_pairs dist mol1 mol2 cutoff).map Prod.snd, ([] : List Bool))

/-- Source `halogenbonds(mol1, mol2, cutoff=4, tolerance=30)`. -/
def halogenbonds (dist : Vec3 → Vec3 → ℚ) (angl : Vec3 → Vec3 → Vec3 → Option ℚ)
    (mol1 mol2 : Molecule) (cutoff tolerance : ℚ) :
    Option (List Atom × List Atom × List Bool) :=
  match halogenbond_acceptor_halogen dist angl mol1 mol2 tolerance cutoff,
        halogenbond_acceptor_halogen dist angl mol2 mol1 tolerance cutoff with
  | some (a1, h1, s1), some (a2, h2, s2) => some (a1 ++ h2, h1 ++ a2, s1 ++ s2)
  | _, _ => none

/-- The candidate ring pairs of `pi_stacking` (centroid-to-centroid cutoff). -/
def ring_pairs (dist : Vec3 → Vec3 → ℚ) (mol1 mol2 : Molecule) (cutoff : ℚ) :
    List (Ring × Ring) :=
  close_contacts (fun r1 r2 => dist r1.centroid r2.centroid)
    mol1.ring_dict mol2.ring_dict cutoff 0

/-- First angle of `pi_stacking`: between the two ring normals (`angle_2v`). -/
def ring_angle1 (angl2v : Vec3 → Vec3 → Option ℚ) (rr : Ring × Ring) : Option ℚ :=
  angl2v rr.1.vector rr.2.vector

/-- Second angle of `pi_stacking`: at the first centroid, between the normal
endpoint `vector + centroid` and the second centroid. -/
def ring_angle2 (angl : Vec3 → Vec3 → Vec3 → Option ℚ) (rr : Ring × Ring) : Option ℚ :=
  angl (rr.1.vector + rr.1.centroid) rr.1.centroid rr.2.centroid

/-- The parallel band of `pi_stacking`: both angles near 0 or 180 degrees. -/
def parallel_bands (a1 a2 : Option ℚ) (tolerance : ℚ) : Bool :=
  (optGT a1 (180 - tolerance) || optLT a1 tolerance) &&
  (optGT a2 (180 - tolerance) || optLT a2 tolerance)

/-- The perpendicular band of `pi_stacking`: normals angle strictly between
`90 - tolerance` and `90 + tolerance`, centroid angle near 0 or 180 degrees. -/
def perpendicular_bands (a1 a2 : Option ℚ) (tolerance : ℚ) : Bool :=
  (optGT a1 (90 - tolerance) && optLT a1 (90 + tolerance)) &&
  (optGT a2 (180 - tolerance) || optLT a2 tolerance)

/-- Source `pi_stacking(mol1, mol2, cutoff=5, tolerance=30)`. -/
def pi_stacking (dist : Vec3 → Vec3 → ℚ) (angl2v : Vec3 → Vec3 → Option ℚ)
    (angl : Vec3 → Vec3 → Vec3 → Option ℚ) (mol1 mol2 : Molecule)
    (cutoff tolerance : ℚ) : List Ring × List Ring × List Bool × List Bool :=
  if 0 < ((ring_pairs dist mol1 mol2 cutoff).map Prod.fst).length ∧
      0 < ((ring_pairs dist mol1 mol2 cutoff).map Prod.snd).length then
    ((ring_pairs dist mol1 mol2 cutoff).map Prod.fst,
     (ring_pairs dist mol1 mol2 cutoff).map Prod.snd,
     (ring_pairs dist mol1 mol2 cutoff).map (fun rr =>
       parallel_bands (ring_angle1 angl2v rr) (ring_angle2 angl rr) tolerance),
     (ring_pairs dist mol1 mol2 cutoff).map (fun rr =>
       perpendicular_bands (ring_angle1 angl2v rr) (ring_angle2 angl rr) tolerance))
  else
    ((ring_pairs dist mol1 mol2 cutoff).map Prod.fst,
     (ring_pairs dist mol1 mol2 cutoff).map Prod.snd, [], [])

/-- The candidate cation/anion pairs of `salt_bridge_plus_minus`. -/
def salt_pairs (dist : Vec3 → Vec3 → ℚ) (mol1 mol2 : Molecule) (cutoff : ℚ) :
    List (Atom × Atom) :=
  close_contacts (fun p q => dist p.coords q.coords)
    (mol1.atom_dict.filter (fun p => p.isplus))
    (mol2.atom_dict.filter (fun q => q.isminus)) cutoff 0

/-- Source `salt_bridge_plus_minus(mol1, mol2, cutoff=4)`. -/
def salt_bridge_plus_minus (dist : Vec3 → Vec3 → ℚ) (mol1 mol2 : Molecule)
    (cutoff : ℚ) : List Atom × List Atom :=
  ((salt_pairs dist mol1 mol2 cutoff).map Prod.fst,
   (salt_pairs dist mol1 mol2 cutoff).map Prod.snd)

/-- Source `salt_bridges(mol1, mol2, ...)`: both directions of
`salt_bridge_plus_minus`, concatenated so the first array is mol1-side. -/
def salt_bridges (dist : Vec3 → Vec3 → ℚ) (mol1 mol2 : Molecule) (cutoff : ℚ) :
    List Atom × List Atom :=
  ((salt_bridge_plus_minus dist mol1 mol2 cutoff).1 ++
     (salt_bridge_plus_minus dist mol2 mol1 cutoff).2,
   (salt_bridge_plus_minus dist mol1 mol2 cutoff).2 ++
     (salt_bridge_plus_minus dist mol2 mol1 cutoff).1)

/-- Source `hydrophobic_contacts(mol1, mol2, cutoff=4)`. -/
def hydrophobic_contacts (dist : Vec3 → Vec3 → ℚ) (mol1 mol2 : Molecule)
    (cutoff : ℚ) : List Atom × List Atom :=
  ((close_contacts (fun p q => dist p.coords q.coords)
      (mol1.atom_dict.filter (fun p => p.ishydrophobe))
      (mol2.atom_dict.filter (fun q => q.ishydrophobe)) cutoff 0).map Prod.fst,
   (close_contacts (fun p q => dist p.coords q.coords)
      (mol1.atom_dict.filter (fun p => p.ishydrophobe))
      (mol2.atom_dict.filter (fun q => q.ishydrophobe)) cutoff 0).map Prod.snd)

/-- The candidate ring/cation pairs of `pi_cation`. -/
def pi_cation_pairs (dist : Vec3 → Vec3 → ℚ) (mol1 mol2 : Molecule) (cutoff : ℚ) :
    List (Ring × Atom) :=
  close_contacts (fun r p => dist r.centroid p.coords)
    mol1.ring_dict (mol2.atom_dict.filter (fun p => p.isplus)) cutoff 0

/-- Source `pi_cation(mol1, mol2, cutoff=5, tolerance=30)`. -/
def pi_cation (dist : Vec3 → Vec3 → ℚ) (angl2v : Vec3 → Vec3 → Option ℚ)
    (mol1 mol2 : Molecule) (cutoff tolerance : ℚ) :
    List Ring × List Atom × List Bool :=
  if 0 < ((pi_cation_pairs dist mol1 mol2 cutoff).map Prod.fst).length ∧
      0 < ((pi_cation_pairs dist mol1 mol2 cutoff).map Prod.snd).length then
    ((pi_cation_pairs dist mol1 mol2 cutoff).map Prod.fst,
     (pi_cation_pairs dist mol1 mol2 cutoff).map Prod.snd,
     (pi_cation_pairs dist mol1 mol2 cutoff).map (fun rp =>
       optGT (angl2v rp.1.vector (rp.2.coords - rp.1.centroid)) (180 - tolerance) ||
       optLT (angl2v rp.1.vector (rp.2.coords - rp.1.centroid)) tolerance))
  else
    ((pi_cation_pairs dist mol1 mol2 cutoff).map Prod.fst,
     (pi_cation_pairs dist mol1 mol2 cutoff).map Prod.snd, [])

/-- The candidate acceptor/metal pairs of `acceptor_metal`. -/
def acceptor_metal_pairs (dist : Vec3 → Vec3 → ℚ) (mol1 mol2 : Molecule)
    (cutoff : ℚ) : List (Atom × Atom) :=
  close_contacts (fun p q => dist p.coords q.coords)
    (mol1.atom_dict.filter (fun p => p.isacceptor))
    (mol2.atom_dict.filter (fun q => q.ismetal)) cutoff 0

/-- Source `acceptor_metal(mol1, mol2, tolerance=30, cutoff=4)`: single-sided,
only the acceptor-side angular check. -/
def acceptor_metal (dist : Vec3 → Vec3 → ℚ) (angl : Vec3 → Vec3 → Vec3 → Option ℚ)
    (mol1 mol2 : Molecule) (tolerance cutoff : ℚ) :
    Option (List Atom × List Atom × List Bool) :=
  if 0 < ((acceptor_metal_pairs dist mol1 mol2 cutoff).map Prod.fst).length ∧
      0 < ((acceptor_metal_pairs dist mol1 mol2 cutoff).map Prod.snd).length then
    match
      check_angles
        ((acceptor_metal_pairs dist mol1 mol2 cutoff).map (fun pq =>
          neighbor_angles angl pq.2.coords pq.1.coords pq.1.neighbors))
        (((acceptor_metal_pairs dist mol1 mol2 cutoff).map Prod.fst).map Atom.hybridization)
        tolerance with
    | some s =>
        some ((acceptor_metal_pairs dist mol1 mol2 cutoff).map Prod.fst,
              (acceptor_metal_pairs dist mol1 mol2 cutoff).map Prod.snd, s)
    | none => none
  else
    some ((acceptor_metal_pairs dist mol1 mol2 cutoff).map Prod.fst,
          (acceptor_metal_pairs dist mol1 mol2 cutoff).map Prod.snd, ([] : List Bool))

/-- The candidate ring/metal pairs of `pi_metal`. -/
def pi_metal_pairs (dist : Vec3 → Vec3 → ℚ) (mol1 mol2 : Molecule) (cutoff : ℚ) :
    List (Ring × Atom) :=
  close_contacts (fun r p => dist r.centroid p.coords)
    mol1.ring_dict (mol2.atom_dict.filter (fun p => p.ismetal)) cutoff 0

/-- Source `pi_metal(mol1, mol2, cutoff=5, tolerance=30)`. -/
def pi_metal (dist : Vec3 → Vec3 → ℚ) (angl2v : Vec3 → Vec3 → Option ℚ)
    (mol1 mol2 : Molecule) (cutoff tolerance : ℚ) :
    List Ring × List Atom × List Bool :=
  if 0 < ((pi_metal_pairs dist mol1 mol2 cutoff).map Prod.fst).length ∧
      0 < ((pi_metal_pairs dist mol1 mol2 cutoff).map Prod.snd).length then
    ((pi_metal_pairs dist mol1 mol2 cutoff).map Prod.fst,
     (pi_metal_pairs dist mol1 mol2 cutoff).map Prod.snd,
     (pi_metal_pairs dist mol1 mol2 cutoff).map (fun rp =>
       optGT (angl2v rp.1.vector (rp.2.coords - rp.1.centroid)) (180 - tolerance) ||
       optLT (angl2v rp.1.vector (rp.2.coords - rp.1.centroid)) tolerance))
  else
    ((pi_metal_pairs dist mol1 mol2 cutoff).map Prod.fst,
     (pi_metal_pairs dist mol1 mol2 cutoff).map Prod.snd, [])

/-- Modelled from the spec: the external `oddt.spatial.distance` is the
euclidean distance; specialized here to points that differ only in the `x`
coordinate (as in the concrete scenarios below), where it equals the absolute
difference of the `x` coordinates. -/
def distX (p q : Vec3) : ℚ := |q.x - p.x|

/-- Concrete acceptor atom of the H-bond scenario: at the origin, sp hybridized
(ideal angle 180), one valid neighbor slot. -/
def acAtom : Atom :=
  ⟨⟨0, 0, 0⟩, [some ⟨1, 0, 0⟩], 1, true, false, false, false, false, false, false⟩

/-- Concrete donor atom of the H-bond scenario: 3.0 away on the x axis, sp
hybridized, one valid neighbor slot. -/
def doAtom : Atom :=
  ⟨⟨3, 0, 0⟩, [some ⟨2, 0, 0⟩], 1, false, true, false, false, false, false, false⟩

/-- Molecule holding only the scenario acceptor. -/
def molAcceptor : Molecule := ⟨[acAtom], []⟩

/-- Molecule holding only the scenario donor. -/
def molDonor : Molecule := ⟨[doAtom], []⟩

/-- First ring of the pi-stacking scenario: centroid at the origin. -/
def ringA : Ring := ⟨⟨0, 0, 0⟩, ⟨0, 0, 1⟩⟩

/-- Second ring of the pi-stacking scenario: centroid 4.0 away on the x axis,
normal parallel to the first. -/
def ringB : Ring := ⟨⟨4, 0, 0⟩, ⟨0, 0, 1⟩⟩

/-- Molecule holding only the first scenario ring. -/
def molRingA : Molecule := ⟨[], [ringA]⟩

/-- Molecule holding only the second scenario ring. -/
def molRingB : Molecule := ⟨[], [ringB]⟩

/-- The empty molecule (no atoms, no rings). -/
def molEmpty : Molecule := ⟨[], []⟩

lemma length_BASE_ANGLES : BASE_ANGLES.length = 5 := rfl

lemma get?_BASE_ANGLES_of_lt {h : Nat} (hh : h < 5) :
    BASE_ANGLES.get? h = some (idealOf h) := by
  unfold idealOf
  cases hg : BASE_ANGLES.get? h with
  | none =>
      have hlen := List.get?_eq_none.mp hg
      rw [length_BASE_ANGLES] at hlen
      omega
  | some v => rfl

lemma takeIdeals_eq_map {l : List Nat} (hall : ∀ x ∈ l, x < 5) :
    takeIdeals l = some (l.map idealOf) := by
  induction l with
  | nil => rfl
  | cons a t ih =>
      have ha : BASE_ANGLES.get? a = some (idealOf a) :=
        get?_BASE_ANGLES_of_lt (hall a (List.mem_cons_self a t))
      have hts : takeIdeals t = some (t.map idealOf) :=
        ih (fun x hx => hall x (List.mem_cons_of_mem a hx))
      simp only [takeIdeals, ha, hts, List.map_cons]

lemma takeIdeals_eq_none {l : List Nat} {x : Nat} (hx : x ∈ l) (h5 : 5 ≤ x) :
    takeIdeals l = none := by
  induction l with
  | nil => cases hx
  | cons a t ih =>
      rcases List.mem_cons.mp hx with rfl | hmem
      · have hnone : BASE_ANGLES.get? x = none := by
          apply List.get?_eq_none.mpr
          rw [length_BASE_ANGLES]
          exact h5
        cases htt : takeIdeals t <;> simp only [takeIdeals, hnone, htt]
      · cases hga : BASE_ANGLES.get? a <;> simp only [takeIdeals, ih hmem, hga]

lemma zipWith_map_same {α β γ δ : Type} (f : β → γ → δ) (g : α → β) (k : α → γ)
    (l : List α) :
    List.zipWith f (l.map g) (l.map k) = l.map (fun x => f (g x) (k x)) := by
  induction l with
  | nil => rfl
  | cons a t ih => simp [ih]

lemma check_angles_map {α : Type} (f : α → List (Option ℚ)) (g : α → Nat)
    (l : List α) (t : ℚ) (hall : ∀ x ∈ l, g x < 5) :
    check_angles (l.map f) (l.map g) t =
      some (l.map (fun x => checkRow (f x) (idealOf (g x)) t)) := by
  have hv : ∀ x ∈ l.map g, x < 5 := by
    intro x hx
    obtain ⟨y, hy, rfl⟩ := List.mem_map.mp hx
    exact hall y hy
  unfold check_angles
  rw [takeIdeals_eq_map hv]
  simp [List.map_map, zipWith_map_same, Function.comp]

lemma check_angles_singleton (row : List (Option ℚ)) (h : Nat) (t : ℚ) :
    check_angles [row] [h] t =
      (BASE_ANGLES.get? h).map (fun ideal => [checkRow row ideal t]) := by
  unfold check_angles
  have hti : takeIdeals [h] = (BASE_ANGLES.get? h).map (fun i => [i]) := by
    simp only [takeIdeals]
    cases BASE_ANGLES.get? h <;> rfl
  rw [hti]
  cases BASE_ANGLES.get? h <;> rfl

lemma mem_close_contacts {α β : Type} (d : α → β → ℚ) (x : List α) (y : List β)
    (cutoff cutoff_low : ℚ) (a : α) (b : β) :
    (a, b) ∈ close_contacts d x y cutoff cutoff_low ↔
      a ∈ x ∧ b ∈ y ∧ cutoff_low < d a b ∧ d a b ≤ cutoff := by
  unfold close_contacts
  split
  case isTrue h =>
    simp only [List.mem_flatMap, List.mem_filterMap]
    constructor
    · rintro ⟨a', ha', b', hb', hif⟩
      split at hif
      case isTrue hcond =>
        simp only [Option.some.injEq, Prod.mk.injEq] at hif
        obtain ⟨rfl, rfl⟩ := hif
        exact ⟨ha', hb', hcond⟩
      case isFalse hcond => simp at hif
    · rintro ⟨ha, hb, hcond⟩
      exact ⟨a, ha, b, hb, by rw [if_pos hcond]⟩
  case isFalse h =>
    rcases x with _ | ⟨c, t⟩
    · simp
    · simp at h

lemma close_contacts_eq_nil {α β : Type} {d : α → β → ℚ} {x : List α} {y : List β}
    {cutoff cutoff_low : ℚ} (h : x = [] ∨ y = []) :
    close_contacts d x y cutoff cutoff_low = [] := by
  rcases h with rfl | rfl
  · simp [close_contacts]
  · unfold close_contacts
    split
    · simp
    · rfl

/-- Claim C1 (counterexample): with hybridization code 0 (ideal angle 0) and
tolerance 30 > 0, a pair whose only measured angle is the NaN sentinel IS
classified strict: `nan_to_num` sends NaN to 0, which lies strictly inside
the open band `(0 - 30, 0 + 30)`. -/
theorem c1_counterexample :
    check_angles [[(none : Option ℚ)]] [0] 30 = some [true] ∧ (0 : ℚ) < 30 := by
  constructor
  · norm_num [check_angles, takeIdeals, checkRow, nan_to_num, BASE_ANGLES]
  · norm_num

/-- Claim C1 (amended): NaN angles are replaced by 0 before the band test, so a
pair all of whose measured angles are NaN is classified not strict exactly when
0 is outside the open band, in particular whenever
`0 < tolerance ≤ ideal angle` (so for all hybridization codes 1..4 with
tolerance up to the ideal angle; code 0 has ideal angle 0 and is the
counterexample). -/
theorem c1_nan_not_strict (hyb : Nat) (ideal tolerance : ℚ) (row : List (Option ℚ))
    (hg : BASE_ANGLES.get? hyb = some ideal) (ht : 0 < tolerance)
    (hti : tolerance ≤ ideal) (hnan : ∀ a ∈ row, a = none) :
    check_angles [row] [hyb] tolerance = some [false] := by
  rw [check_angles_singleton, hg, Option.map_some']
  have hcr : checkRow row ideal tolerance = false := by
    unfold checkRow
    apply List.any_eq_false.mpr
    intro a ha
    rw [hnan a ha]
    have h0 : ¬ (ideal - tolerance < nan_to_num none) := by
      have hge : (0 : ℚ) ≤ ideal - tolerance := by linarith
      simpa [nan_to_num] using not_lt.mpr hge
    rw [decide_eq_false h0, Bool.false_and]
    simp
  rw [hcr]

/-- Claim C1 witness: hybridization code 1 (ideal 180), tolerance 30, both
neighbor slots NaN: the pair is not strict. -/
theorem c1_nan_not_strict_witness :
    check_angles [[(none : Option ℚ), none]] [1] 30 = some [false] :=
  c1_nan_not_strict 1 180 30 [none, none] rfl (by norm_num) (by norm_num)
    (by intro a ha; simp at ha; exact ha)

/-- Claim C4: for a valid hybridization code and real (non-NaN) measured
angles, the strictness classifier returns true for the pair iff at least one
measured angle lies strictly inside the open band
`(ideal - tolerance, ideal + tolerance)`. -/
theorem c4_band_iff (angles : List ℚ) (hyb : Nat) (ideal tolerance : ℚ)
    (hg : BASE_ANGLES.get? hyb = some ideal) :
    check_angles [angles.map some] [hyb] tolerance = some [true] ↔
      ∃ a ∈ angles, ideal - tolerance < a ∧ a < ideal + tolerance := by
  rw [check_angles_singleton, hg, Option.map_some']
  simp [checkRow, nan_to_num, List.any_map, Function.comp, List.any_eq_true]

/-- Claim C4 witness: measured angle 179 against ideal 180 (hybridization code
1) with tolerance 30 is strict. -/
theorem c4_band_iff_witness :
    check_angles [[(some (179 : ℚ))]] [1] 30 = some [true] :=
  (c4_band_iff [179] 1 180 30 rfl).mpr ⟨179, by simp, by norm_num, by norm_num⟩

/-- Claim C7: the strictness classifier is monotone in the tolerance: widening
the tolerance never turns a strict pair non-strict. -/
theorem c7_tolerance_mono (row : List (Option ℚ)) (hyb : Nat) (t1 t2 : ℚ)
    (h12 : t1 ≤ t2) (h1 : check_angles [row] [hyb] t1 = some [true]) :
    check_angles [row] [hyb] t2 = some [true] := by
  rw [check_angles_singleton] at h1 ⊢
  cases hg : BASE_ANGLES.get? hyb with
  | none => rw [hg] at h1; simp at h1
  | some ideal =>
      rw [hg] at h1
      rw [Option.map_some'] at h1 ⊢
      have hb : checkRow row ideal t1 = true := by simpa using h1
      have hb2 : checkRow row ideal t2 = true := by
        unfold checkRow at hb ⊢
        obtain ⟨a, ha, hp⟩ := List.any_eq_true.mp hb
        rw [Bool.and_eq_true] at hp
        obtain ⟨hl, hr⟩ := hp
        apply List.any_eq_true.mpr
        refine ⟨a, ha, ?_⟩
        rw [Bool.and_eq_true]
        constructor
        · apply decide_eq_true
          have := of_decide_eq_true hl
          linarith
        · apply decide_eq_true
          have := of_decide_eq_true hr
          linarith
      simp [hb2]

/-- Claim C7 witness: angle 179 against ideal 180 is strict at tolerance 5 and
stays strict at tolerance 30. -/
theorem c7_tolerance_mono_witness :
    check_angles [[(some (179 : ℚ))]] [1] 30 = some [true] :=
  c7_tolerance_mono [some 179] 1 5 30 (by norm_num)
    (by norm_num [check_angles, takeIdeals, checkRow, nan_to_num, BASE_ANGLES])

/-- Claim C10: the ideal-angle lookup is bounds-checked: any hybridization code
at least 5 makes the classifier call fail (no result), while all-valid codes
always produce a result. -/
theorem c10_bounds_checked (angless : List (List (Option ℚ))) (hybs : List Nat)
    (t : ℚ) :
    (∀ h ∈ hybs, 5 ≤ h → check_angles angless hybs t = none) ∧
    ((∀ h ∈ hybs, h < 5) → (check_angles angless hybs t).isSome = true) := by
  constructor
  · intro h hmem h5
    unfold check_angles
    rw [takeIdeals_eq_none hmem h5]
    rfl
  · intro hall
    unfold check_angles
    rw [takeIdeals_eq_map hall]
    rfl

/-- Claim C10 witness: hybridization code 5 is out of range for the five-entry
table and the classifier call fails. -/
theorem c10_bounds_checked_witness :
    check_angles [[(some (100 : ℚ))]] [5] 30 = none :=
  (c10_bounds_checked [[(some (100 : ℚ))]] [5] 30).1 5 (by simp) (by norm_num)

lemma mem_close_contacts' {α β : Type} {d : α → β → ℚ} {x : List α} {y : List β}
    {cutoff cutoff_low : ℚ} {pq : α × β}
    (h : pq ∈ close_contacts d x y cutoff cutoff_low) :
    pq.1 ∈ x ∧ pq.2 ∈ y ∧ cutoff_low < d pq.1 pq.2 ∧ d pq.1 pq.2 ≤ cutoff := by
  obtain ⟨a, b⟩ := pq
  exact (mem_close_contacts d x y cutoff cutoff_low a b).mp h

lemma hbond_pairs_mem {dist : Vec3 → Vec3 → ℚ} {mol1 mol2 : Molecule} {cutoff : ℚ}
    {pq : Atom × Atom} (h : pq ∈ hbond_pairs dist mol1 mol2 cutoff) :
    pq.1 ∈ mol1.atom_dict ∧ pq.2 ∈ mol2.atom_dict := by
  unfold hbond_pairs at h
  have hm := mem_close_contacts' h
  exact ⟨(List.mem_filter.mp hm.1).1, (List.mem_filter.mp hm.2.1).1⟩

lemma halogen_pairs_mem {dist : Vec3 → Vec3 → ℚ} {mol1 mol2 : Molecule} {cutoff : ℚ}
    {pq : Atom × Atom} (h : pq ∈ halogen_pairs dist mol1 mol2 cutoff) :
    pq.1 ∈ mol1.atom_dict ∧ pq.2 ∈ mol2.atom_dict := by
  unfold halogen_pairs at h
  have hm := mem_close_contacts' h
  exact ⟨(List.mem_filter.mp hm.1).1, (List.mem_filter.mp hm.2.1).1⟩

lemma salt_pairs_mem {dist : Vec3 → Vec3 → ℚ} {mol1 mol2 : Molecule} {cutoff : ℚ}
    {pq : Atom × Atom} (h : pq ∈ salt_pairs dist mol1 mol2 cutoff) :
    pq.1 ∈ mol1.atom_dict ∧ pq.2 ∈ mol2.atom_dict := by
  unfold salt_pairs at h
  have hm := mem_close_contacts' h
  exact ⟨(List.mem_filter.mp hm.1).1, (List.mem_filter.mp hm.2.1).1⟩

lemma hbond_AD_eq (dist : Vec3 → Vec3 → ℚ) (angl : Vec3 → Vec3 → Vec3 → Option ℚ)
    (mol1 mol2 : Molecule) (cutoff tolerance : ℚ)
    (hval : ∀ pq ∈ hbond_pairs dist mol1 mol2 cutoff,
      pq.1.hybridization < 5 ∧ pq.2.hybridization < 5) :
    hbond_acceptor_donor dist angl mol1 mol2 cutoff tolerance =
      some ((hbond_pairs dist mol1 mol2 cutoff).map Prod.fst,
            (hbond_pairs dist mol1 mol2 cutoff).map Prod.snd,
            (hbond_pairs dist mol1 mol2 cutoff).map
              (fun pq => hbond_strict_pair angl pq tolerance)) := by
  have h1 : check_angles
      ((hbond_pairs dist mol1 mol2 cutoff).map (fun pq =>
        neighbor_angles angl pq.2.coords pq.1.coords pq.1.neighbors))
      (((hbond_pairs dist mol1 mol2 cutoff).map Prod.fst).map Atom.hybridization)
      tolerance =
      some ((hbond_pairs dist mol1 mol2 cutoff).map (fun pq =>
        checkRow (neighbor_angles angl pq.2.coords pq.1.coords pq.1.neighbors)
          (idealOf pq.1.hybridization) tolerance)) := by
    rw [List.map_map]
    exact check_angles_map _ (Atom.hybridization ∘ Prod.fst) _ _
      (fun pq hpq => (hval pq hpq).1)
  have h2 : check_angles
      ((hbond_pairs dist mol1 mol2 cutoff).map (fun pq =>
        neighbor_angles angl pq.1.coords pq.2.coords pq.2.neighbors))
      (((hbond_pairs dist mol1 mol2 cutoff).map Prod.snd).map Atom.hybridization)
      tolerance =
      some ((hbond_pairs dist mol1 mol2 cutoff).map (fun pq =>
        checkRow (neighbor_angles angl pq.1.coords pq.2.coords pq.2.neighbors)
          (idealOf pq.2.hybridization) tolerance)) := by
    rw [List.map_map]
    exact check_angles_map _ (Atom.hybridization ∘ Prod.snd) _ _
      (fun pq hpq => (hval pq hpq).2)
  unfold hbond_acceptor_donor
  split
  case isTrue hc =>
    simp only [h1, h2, zipWith_map_same]
    rfl
  case isFalse hc =>
    have hp : hbond_pairs dist mol1 mol2 cutoff = [] := by
      by_contra hne
      exact hc ⟨by rw [List.length_map]; exact List.length_pos.mpr hne,
                by rw [List.length_map]; exact List.length_pos.mpr hne⟩
    simp [hp]

lemma hbond_AD_some_eq {dist : Vec3 → Vec3 → ℚ} {angl : Vec3 → Vec3 → Vec3 → Option ℚ}
    {mol1 mol2 : Molecule} {cutoff tolerance : ℚ} {a d : List Atom} {s : List Bool}
    (h : hbond_acceptor_donor dist angl mol1 mol2 cutoff tolerance = some (a, d, s)) :
    a = (hbond_pairs dist mol1 mol2 cutoff).map Prod.fst ∧
    d = (hbond_pairs dist mol1 mol2 cutoff).map Prod.snd := by
  unfold hbond_acceptor_donor at h
  split at h
  · split at h
    · simp only [Option.some.injEq, Prod.mk.injEq] at h
      exact ⟨h.1.symm, h.2.1.symm⟩
    · simp at h
  · simp only [Option.some.injEq, Prod.mk.injEq] at h
    exact ⟨h.1.symm, h.2.1.symm⟩

lemma halogen_AH_some_eq {dist : Vec3 → Vec3 → ℚ} {angl : Vec3 → Vec3 → Vec3 → Option ℚ}
    {mol1 mol2 : Molecule} {tolerance cutoff : ℚ} {a d : List Atom} {s : List Bool}
    (h : halogenbond_acceptor_halogen dist angl mol1 mol2 tolerance cutoff =
      some (a, d, s)) :
    a = (halogen_pairs dist mol1 mol2 cutoff).map Prod.fst ∧
    d = (halogen_pairs dist mol1 mol2 cutoff).map Prod.snd := by
  unfold halogenbond_acceptor_halogen at h
  split at h
  · split at h
    · simp only [Option.some.injEq, Prod.mk.injEq] at h
      exact ⟨h.1.symm, h.2.1.symm⟩
    · simp at h
  · simp only [Option.some.injEq, Prod.mk.injEq] at h
    exact ⟨h.1.symm, h.2.1.symm⟩

lemma hbonds_some {dist : Vec3 → Vec3 → ℚ} {angl : Vec3 → Vec3 → Vec3 → Option ℚ}
    {mol1 mol2 : Molecule} {cutoff tolerance : ℚ} {p q : List Atom} {s : List Bool}
    (h : hbonds dist angl mol1 mol2 cutoff tolerance = some (p, q, s)) :
    ∃ a1 d1 s1 a2 d2 s2,
      hbond_acceptor_donor dist angl mol1 mol2 cutoff tolerance = some (a1, d1, s1) ∧
      hbond_acceptor_donor dist angl mol2 mol1 cutoff tolerance = some (a2, d2, s2) ∧
      p = a1 ++ d2 ∧ q = d1 ++ a2 ∧ s = s1 ++ s2 := by
  unfold hbonds at h
  cases h1 : hbond_acceptor_donor dist angl mol1 mol2 cutoff tolerance with
  | none => rw [h1] at h; simp at h
  | some t1 =>
    obtain ⟨a1, d1, s1⟩ := t1
    cases h2 : hbond_acceptor_donor dist angl mol2 mol1 cutoff tolerance with
    | none => rw [h1, h2] at h; simp at h
    | some t2 =>
      obtain ⟨a2, d2, s2⟩ := t2
      rw [h1, h2] at h
      simp only [Option.some.injEq, Prod.mk.injEq] at h
      exact ⟨a1, d1, s1, a2, d2, s2, rfl, rfl, h.1.symm, h.2.1.symm, h.2.2.symm⟩

lemma halogenbonds_some {dist : Vec3 → Vec3 → ℚ} {angl : Vec3 → Vec3 → Vec3 → Option ℚ}
    {mol1 mol2 : Molecule} {cutoff tolerance : ℚ} {p q : List Atom} {s : List Bool}
    (h : halogenbonds dist angl mol1 mol2 cutoff tolerance = some (p, q, s)) :
    ∃ a1 d1 s1 a2 d2 s2,
      halogenbond_acceptor_halogen dist angl mol1 mol2 tolerance cutoff =
        some (a1, d1, s1) ∧
      halogenbond_acceptor_halogen dist angl mol2 mol1 tolerance cutoff =
        some (a2, d2, s2) ∧
      p = a1 ++ d2 ∧ q = d1 ++ a2 ∧ s = s1 ++ s2 := by
  unfold halogenbonds at h
  cases h1 : halogenbond_acceptor_halogen dist angl mol1 mol2 tolerance cutoff with
  | none => rw [h1] at h; simp at h
  | some t1 =>
    obtain ⟨a1, d1, s1⟩ := t1
    cases h2 : halogenbond_acceptor_halogen dist angl mol2 mol1 tolerance cutoff with
    | none => rw [h1, h2] at h; simp at h
    | some t2 =>
      obtain ⟨a2, d2, s2⟩ := t2
      rw [h1, h2] at h
      simp only [Option.some.injEq, Prod.mk.injEq] at h
      exact ⟨a1, d1, s1, a2, d2, s2, rfl, rfl, h.1.symm, h.2.1.symm, h.2.2.symm⟩

lemma pi_stacking_strict_eq (dist : Vec3 → Vec3 → ℚ) (angl2v : Vec3 → Vec3 → Option ℚ)
    (angl : Vec3 → Vec3 → Vec3 → Option ℚ) (mol1 mol2 : Molecule) (cutoff t : ℚ) :
    (pi_stacking dist angl2v angl mol1 mol2 cutoff t).2.2.1 =
      (ring_pairs dist mol1 mol2 cutoff).map (fun rr =>
        parallel_bands (ring_angle1 angl2v rr) (ring_angle2 angl rr) t) ∧
    (pi_stacking dist angl2v angl mol1 mol2 cutoff t).2.2.2 =
      (ring_pairs dist mol1 mol2 cutoff).map (fun rr =>
        perpendicular_bands (ring_angle1 angl2v rr) (ring_angle2 angl rr) t) := by
  unfold pi_stacking
  split
  case isTrue hc => exact ⟨rfl, rfl⟩
  case isFalse hc =>
    have hp : ring_pairs dist mol1 mol2 cutoff = [] := by
      by_contra hne
      exact hc ⟨by rw [List.length_map]; exact List.length_pos.mpr hne,
                by rw [List.length_map]; exact List.length_pos.mpr hne⟩
    simp [hp]

lemma bands_not_both {a1 a2 : Option ℚ} {t : ℚ} (ht : t ≤ 45) :
    ¬(parallel_bands a1 a2 t = true ∧ perpendicular_bands a1 a2 t = true) := by
  rintro ⟨hpar, hperp⟩
  unfold parallel_bands at hpar
  unfold perpendicular_bands at hperp
  rw [Bool.and_eq_true] at hpar hperp
  obtain ⟨hpar1, -⟩ := hpar
  obtain ⟨hperp1, -⟩ := hperp
  cases a1 with
  | none => simp [optGT, optLT] at hpar1
  | some v1 =>
      rw [Bool.or_eq_true] at hpar1
      rw [Bool.and_eq_true] at hperp1
      obtain ⟨hg, hl⟩ := hperp1
      have hgv : 90 - t < v1 := by simpa [optGT] using hg
      have hlv : v1 < 90 + t := by simpa [optLT] using hl
      rcases hpar1 with hcase | hcase
      · have hv : 180 - t < v1 := by simpa [optGT] using hcase
        linarith
      · have hv : v1 < t := by simpa [optLT] using hcase
        linarith

/-- Claim C2: `close_contacts` emits exactly the pairs whose distance lies in
the semi-inclusive window `(cutoff_low, cutoff]`; on the boundary (distances
taken along the x axis here, where a 1D distance function realizes them
exactly), a pair at distance exactly `cutoff` is included and a pair at
distance exactly `cutoff_low` is excluded. -/
theorem c2_close_contacts_window :
    (∀ {α β : Type} (d : α → β → ℚ) (x : List α) (y : List β)
      (cutoff cutoff_low : ℚ) (a : α) (b : β),
      ((a, b) ∈ close_contacts d x y cutoff cutoff_low ↔
        a ∈ x ∧ b ∈ y ∧ cutoff_low < d a b ∧ d a b ≤ cutoff)) ∧
    ((0 : ℚ), (3 : ℚ)) ∈ close_contacts (fun a b : ℚ => |b - a|) [0] [1, 3, 4] 3 1 ∧
    ((0 : ℚ), (1 : ℚ)) ∉ close_contacts (fun a b : ℚ => |b - a|) [0] [1, 3, 4] 3 1 ∧
    ((0 : ℚ), (4 : ℚ)) ∉ close_contacts (fun a b : ℚ => |b - a|) [0] [1, 3, 4] 3 1 := by
  refine ⟨fun d x y c cl a b => mem_close_contacts d x y c cl a b, ?_, ?_, ?_⟩
  · exact (mem_close_contacts _ _ _ _ _ _ _).mpr
      ⟨by simp, by simp, by norm_num, by norm_num⟩
  · intro hm
    obtain ⟨-, -, h3, -⟩ := (mem_close_contacts _ _ _ _ _ _ _).mp hm
    norm_num at h3
  · intro hm
    obtain ⟨-, -, -, h4⟩ := (mem_close_contacts _ _ _ _ _ _ _).mp hm
    norm_num at h4

/-- Claim C2 witness: a pair at 1D distance 2 inside the window (1, 3]. -/
theorem c2_close_contacts_window_witness :
    ((0 : ℚ), (2 : ℚ)) ∈ close_contacts (fun a b : ℚ => |b - a|) [0] [2] 3 1 :=
  (c2_close_contacts_window.1 _ _ _ _ _ _ _).mpr
    ⟨by simp, by simp, by norm_num, by norm_num⟩

/-- Claim C3: every detector, given an empty selected subset on either side
(including the case where only the second argument's subset is empty, which
the guard in `close_contacts` does not even test), returns empty index arrays
and empty boolean strictness arrays; the `Option`-valued detectors return
`some`, i.e. they do not raise. -/
theorem c3_empty_subsets (dist : Vec3 → Vec3 → ℚ) (angl : Vec3 → Vec3 → Vec3 → Option ℚ)
    (angl2v : Vec3 → Vec3 → Option ℚ) (mol1 mol2 : Molecule) (cutoff tolerance : ℚ) :
    ((mol1.atom_dict.filter (fun p => p.isacceptor) = [] ∨
        mol2.atom_dict.filter (fun q => q.isdonor) = []) →
      hbond_acceptor_donor dist angl mol1 mol2 cutoff tolerance = some ([], [], [])) ∧
    ((mol1.atom_dict.filter (fun p => p.isacceptor) = [] ∨
        mol2.atom_dict.filter (fun q => q.ishalogen) = []) →
      halogenbond_acceptor_halogen dist angl mol1 mol2 tolerance cutoff =
        some ([], [], [])) ∧
    ((mol1.atom_dict.filter (fun p => p.isacceptor) = [] ∨
        mol2.atom_dict.filter (fun q => q.ismetal) = []) →
      acceptor_metal dist angl mol1 mol2 tolerance cutoff = some ([], [], [])) ∧
    ((mol1.ring_dict = [] ∨ mol2.ring_dict = []) →
      pi_stacking dist angl2v angl mol1 mol2 cutoff tolerance = ([], [], [], [])) ∧
    ((mol1.atom_dict.filter (fun p => p.isplus) = [] ∨
        mol2.atom_dict.filter (fun q => q.isminus) = []) →
      salt_bridge_plus_minus dist mol1 mol2 cutoff = ([], [])) ∧
    ((mol1.atom_dict.filter (fun p => p.ishydrophobe) = [] ∨
        mol2.atom_dict.filter (fun q => q.ishydrophobe) = []) →
      hydrophobic_contacts dist mol1 mol2 cutoff = ([], [])) ∧
    ((mol1.ring_dict = [] ∨ mol2.atom_dict.filter (fun p => p.isplus) = []) →
      pi_cation dist angl2v mol1 mol2 cutoff tolerance = ([], [], [])) ∧
    ((mol1.ring_dict = [] ∨ mol2.atom_dict.filter (fun p => p.ismetal) = []) →
      pi_metal dist angl2v mol1 mol2 cutoff tolerance = ([], [], [])) := by
  refine ⟨?_, ?_, ?_, ?_, ?_, ?_, ?_, ?_⟩
  · intro hsub
    have hp : hbond_pairs dist mol1 mol2 cutoff = [] := by
      unfold hbond_pairs; exact close_contacts_eq_nil hsub
    simp [hbond_acceptor_donor, hp]
  · intro hsub
    have hp : halogen_pairs dist mol1 mol2 cutoff = [] := by
      unfold halogen_pairs; exact close_contacts_eq_nil hsub
    simp [halogenbond_acceptor_halogen, hp]
  · intro hsub
    have hp : acceptor_metal_pairs dist mol1 mol2 cutoff = [] := by
      unfold acceptor_metal_pairs; exact close_contacts_eq_nil hsub
    simp [acceptor_metal, hp]
  · intro hsub
    have hp : ring_pairs dist mol1 mol2 cutoff = [] := by
      unfold ring_pairs; exact close_contacts_eq_nil hsub
    simp [pi_stacking, hp]
  · intro hsub
    have hp : salt_pairs dist mol1 mol2 cutoff = [] := by
      unfold salt_pairs; exact close_contacts_eq_nil hsub
    simp [salt_bridge_plus_minus, hp]
  · intro hsub
    have hp : close_contacts (fun p q => dist p.coords q.coords)
        (mol1.atom_dict.filter (fun p => p.ishydrophobe))
        (mol2.atom_dict.filter (fun q => q.ishydrophobe)) cutoff 0 = [] :=
      close_contacts_eq_nil hsub
    simp [hydrophobic_contacts, hp]
  · intro hsub
    have hp : pi_cation_pairs dist mol1 mol2 cutoff = [] := by
      unfold pi_cation_pairs; exact close_contacts_eq_nil hsub
    simp [pi_cation, hp]
  · intro hsub
    have hp : pi_metal_pairs dist mol1 mol2 cutoff = [] := by
      unfold pi_metal_pairs; exact close_contacts_eq_nil hsub
    simp [pi_metal, hp]

/-- Claim C3 witness: all eight detectors applied to the empty molecule. -/
theorem c3_empty_subsets_witness :
    hbond_acceptor_donor (fun _ _ => 0) (fun _ _ _ => none) molEmpty molEmpty 4 30 =
      some ([], [], []) ∧
    halogenbond_acceptor_halogen (fun _ _ => 0) (fun _ _ _ => none) molEmpty molEmpty
      30 4 = some ([], [], []) ∧
    acceptor_metal (fun _ _ => 0) (fun _ _ _ => none) molEmpty molEmpty 30 4 =
      some ([], [], []) ∧
    pi_stacking (fun _ _ => 0) (fun _ _ => none) (fun _ _ _ => none) molEmpty molEmpty
      4 30 = ([], [], [], []) ∧
    salt_bridge_plus_minus (fun _ _ => 0) molEmpty molEmpty 4 = ([], []) ∧
    hydrophobic_contacts (fun _ _ => 0) molEmpty molEmpty 4 = ([], []) ∧
    pi_cation (fun _ _ => 0) (fun _ _ => none) molEmpty molEmpty 4 30 = ([], [], []) ∧
    pi_metal (fun _ _ => 0) (fun _ _ => none) molEmpty molEmpty 4 30 = ([], [], []) := by
  have h := c3_empty_subsets (fun _ _ => 0) (fun _ _ _ => none) (fun _ _ => none)
    molEmpty molEmpty 4 30
  exact ⟨h.1 (Or.inl rfl), h.2.1 (Or.inl rfl), h.2.2.1 (Or.inl rfl),
    h.2.2.2.1 (Or.inl rfl), h.2.2.2.2.1 (Or.inl rfl), h.2.2.2.2.2.1 (Or.inl rfl),
    h.2.2.2.2.2.2.1 (Or.inl rfl), h.2.2.2.2.2.2.2 (Or.inl rfl)⟩

/-- Claim C5: `pi_stacking` returns two separate strictness arrays, one per
ring pair; for measured (non-NaN) angles `v1` (normal vs normal) and `v2`
(normal endpoint vs centroid), the parallel flag holds iff both angles are
near 0 or 180 degrees and the perpendicular flag holds iff `v1` is strictly
between `90 - t` and `90 + t` while `v2` is near 0 or 180; and the concrete
scenario (centroids 4.0 apart, both angles 0, cutoff 5, tolerance 30) yields
strict_parallel true and strict_perpendicular false. -/
theorem c5_pi_stacking :
    (∀ (a1 a2 : Option ℚ) (t v1 v2 : ℚ), a1 = some v1 → a2 = some v2 →
      ((parallel_bands a1 a2 t = true ↔
         ((180 - t < v1 ∨ v1 < t) ∧ (180 - t < v2 ∨ v2 < t))) ∧
       (perpendicular_bands a1 a2 t = true ↔
         ((90 - t < v1 ∧ v1 < 90 + t) ∧ (180 - t < v2 ∨ v2 < t))))) ∧
    (∀ (dist : Vec3 → Vec3 → ℚ) (angl2v : Vec3 → Vec3 → Option ℚ)
      (angl : Vec3 → Vec3 → Vec3 → Option ℚ) (mol1 mol2 : Molecule) (cutoff t : ℚ),
      (pi_stacking dist angl2v angl mol1 mol2 cutoff t).2.2.1 =
        (ring_pairs dist mol1 mol2 cutoff).map (fun rr =>
          parallel_bands (ring_angle1 angl2v rr) (ring_angle2 angl rr) t) ∧
      (pi_stacking dist angl2v angl mol1 mol2 cutoff t).2.2.2 =
        (ring_pairs dist mol1 mol2 cutoff).map (fun rr =>
          perpendicular_bands (ring_angle1 angl2v rr) (ring_angle2 angl rr) t)) ∧
    pi_stacking distX (fun _ _ => some 0) (fun _ _ _ => some 0) molRingA molRingB
      5 30 = ([ringA], [ringB], [true], [false]) := by
  refine ⟨?_, pi_stacking_strict_eq, ?_⟩
  · rintro a1 a2 t v1 v2 rfl rfl
    constructor
    · simp [parallel_bands, optGT, optLT]
    · simp [perpendicular_bands, optGT, optLT]
  · norm_num [pi_stacking, ring_pairs, close_contacts, distX, molRingA, molRingB,
      ringA, ringB, ring_angle1, ring_angle2, parallel_bands, perpendicular_bands,
      optGT, optLT, List.filterMap_cons, List.filterMap_nil]

/-- Claim C5 witness: at angles 0 and 0 with tolerance 30, the parallel band
holds and the perpendicular band does not. -/
theorem c5_pi_stacking_witness :
    parallel_bands (some (0 : ℚ)) (some (0 : ℚ)) 30 = true ∧
    perpendicular_bands (some (0 : ℚ)) (some (0 : ℚ)) 30 = false := by
  have h := c5_pi_stacking.1 (some 0) (some 0) 30 0 0 rfl rfl
  refine ⟨h.1.mpr ⟨Or.inr (by norm_num), Or.inr (by norm_num)⟩, ?_⟩
  cases hval : perpendicular_bands (some (0 : ℚ)) (some (0 : ℚ)) 30 with
  | false => rfl
  | true =>
      have hc := h.2.mp hval
      norm_num at hc

/-- Claim C9: for tolerance at most 45, no ring pair returned by `pi_stacking`
has both the strict-parallel and the strict-perpendicular flag set: the two
bands on the normals angle are disjoint. -/
theorem c9_disjoint_bands (dist : Vec3 → Vec3 → ℚ) (angl2v : Vec3 → Vec3 → Option ℚ)
    (angl : Vec3 → Vec3 → Vec3 → Option ℚ) (mol1 mol2 : Molecule) (cutoff t : ℚ)
    (k : Nat) (ht : t ≤ 45) :
    ¬((pi_stacking dist angl2v angl mol1 mol2 cutoff t).2.2.1[k]? = some true ∧
      (pi_stacking dist angl2v angl mol1 mol2 cutoff t).2.2.2[k]? = some true) := by
  rintro ⟨hpar, hperp⟩
  have heq := pi_stacking_strict_eq dist angl2v angl mol1 mol2 cutoff t
  rw [heq.1, List.getElem?_map] at hpar
  rw [heq.2, List.getElem?_map] at hperp
  cases hk : (ring_pairs dist mol1 mol2 cutoff)[k]? with
  | none => rw [hk] at hpar; simp at hpar
  | some rr =>
      rw [hk] at hpar hperp
      simp only [Option.map_some', Option.some.injEq] at hpar hperp
      exact bands_not_both ht ⟨hpar, hperp⟩

/-- Claim C9 witness: the concrete pi-stacking scenario at tolerance 30. -/
theorem c9_disjoint_bands_witness :
    ¬((pi_stacking distX (fun _ _ => some 0) (fun _ _ _ => some 0) molRingA molRingB
        5 30).2.2.1[0]? = some true ∧
      (pi_stacking distX (fun _ _ => some 0) (fun _ _ _ => some 0) molRingA molRingB
        5 30).2.2.2[0]? = some true) :=
  c9_disjoint_bands distX (fun _ _ => some 0) (fun _ _ _ => some 0) molRingA molRingB
    5 30 0 (by norm_num)

/-- Claim C8: for every emitted acceptor/donor pair (with in-range
hybridization codes) the strict flag of `hbond_acceptor_donor` is the
conjunction of the acceptor-side and the donor-side angular check
(`hbond_strict_pair`); and in the concrete scenario (distance 3.0, cutoff 3.5,
all measured angles 179 against ideal 180) the pair is emitted and is strict
at tolerance 30 but not at tolerance 0. -/
theorem c8_hbond_conjunction :
    (∀ (dist : Vec3 → Vec3 → ℚ) (angl : Vec3 → Vec3 → Vec3 → Option ℚ)
      (mol1 mol2 : Molecule) (cutoff tolerance : ℚ),
      (∀ pq ∈ hbond_pairs dist mol1 mol2 cutoff,
        pq.1.hybridization < 5 ∧ pq.2.hybridization < 5) →
      hbond_acceptor_donor dist angl mol1 mol2 cutoff tolerance =
        some ((hbond_pairs dist mol1 mol2 cutoff).map Prod.fst,
              (hbond_pairs dist mol1 mol2 cutoff).map Prod.snd,
              (hbond_pairs dist mol1 mol2 cutoff).map
                (fun pq => hbond_strict_pair angl pq tolerance))) ∧
    hbond_acceptor_donor distX (fun _ _ _ => some 179) molAcceptor molDonor 3.5 30 =
      some ([acAtom], [doAtom], [true]) ∧
    hbond_acceptor_donor distX (fun _ _ _ => some 179) molAcceptor molDonor 3.5 0 =
      some ([acAtom], [doAtom], [false]) := by
  refine ⟨hbond_AD_eq, ?_, ?_⟩
  · norm_num [hbond_acceptor_donor, hbond_pairs, close_contacts, distX, molAcceptor,
      molDonor, acAtom, doAtom, check_angles, takeIdeals, checkRow, nan_to_num,
      BASE_ANGLES, neighbor_angles, List.filterMap_cons, List.filterMap_nil]
  · norm_num [hbond_acceptor_donor, hbond_pairs, close_contacts, distX, molAcceptor,
      molDonor, acAtom, doAtom, check_angles, takeIdeals, checkRow, nan_to_num,
      BASE_ANGLES, neighbor_angles, List.filterMap_cons, List.filterMap_nil]

/-- Claim C8 witness: the general conjunction shape applied to the concrete
scenario molecules. -/
theorem c8_hbond_conjunction_witness :
    hbond_acceptor_donor distX (fun _ _ _ => some 179) molAcceptor molDonor 3.5 30 =
      some ((hbond_pairs distX molAcceptor molDonor 3.5).map Prod.fst,
            (hbond_pairs distX molAcceptor molDonor 3.5).map Prod.snd,
            (hbond_pairs distX molAcceptor molDonor 3.5).map
              (fun pq => hbond_strict_pair (fun _ _ _ => some 179) pq 30)) := by
  have hp : hbond_pairs distX molAcceptor molDonor 3.5 = [(acAtom, doAtom)] := by
    norm_num [hbond_pairs, close_contacts, distX, molAcceptor, molDonor, acAtom,
      doAtom, List.filterMap_cons, List.filterMap_nil]
  exact c8_hbond_conjunction.1 distX (fun _ _ _ => some 179) molAcceptor molDonor 3.5 30
    (by
      rw [hp]
      intro pq hpq
      simp at hpq
      subst hpq
      exact ⟨by norm_num [acAtom], by norm_num [doAtom]⟩)

/-- Claim C6: the bidirectional detectors `hbonds`, `halogenbonds` and
`salt_bridges` concatenate the two single-sided results so that the first
returned array holds only mol1 atoms, the second only mol2 atoms, and the
number of pairs is invariant under swapping the two molecules. -/
theorem c6_bidirectional (dist : Vec3 → Vec3 → ℚ) (angl : Vec3 → Vec3 → Vec3 → Option ℚ)
    (mol1 mol2 : Molecule) (cutoff tolerance : ℚ) :
    (∀ p q s, hbonds dist angl mol1 mol2 cutoff tolerance = some (p, q, s) →
      (∀ x ∈ p, x ∈ mol1.atom_dict) ∧ (∀ y ∈ q, y ∈ mol2.atom_dict) ∧
      ∀ p' q' s', hbonds dist angl mol2 mol1 cutoff tolerance = some (p', q', s') →
        p.length = p'.length) ∧
    (∀ p q s, halogenbonds dist angl mol1 mol2 cutoff tolerance = some (p, q, s) →
      (∀ x ∈ p, x ∈ mol1.atom_dict) ∧ (∀ y ∈ q, y ∈ mol2.atom_dict) ∧
      ∀ p' q' s', halogenbonds dist angl mol2 mol1 cutoff tolerance = some (p', q', s') →
        p.length = p'.length) ∧
    ((∀ x ∈ (salt_bridges dist mol1 mol2 cutoff).1, x ∈ mol1.atom_dict) ∧
     (∀ y ∈ (salt_bridges dist mol1 mol2 cutoff).2, y ∈ mol2.atom_dict) ∧
     (salt_bridges dist mol1 mol2 cutoff).1.length =
       (salt_bridges dist mol2 mol1 cutoff).1.length) := by
  refine ⟨?_, ?_, ?_, ?_, ?_⟩
  · intro p q s h
    obtain ⟨a1, d1, s1, a2, d2, s2, h12, h21, rfl, rfl, rfl⟩ := hbonds_some h
    obtain ⟨ha1, hd1⟩ := hbond_AD_some_eq h12
    obtain ⟨ha2, hd2⟩ := hbond_AD_some_eq h21
    refine ⟨?_, ?_, ?_⟩
    · intro x hx
      rcases List.mem_append.mp hx with hx1 | hx2
      · rw [ha1] at hx1
        obtain ⟨pq, hpq, rfl⟩ := List.mem_map.mp hx1
        exact (hbond_pairs_mem hpq).1
      · rw [hd2] at hx2
        obtain ⟨pq, hpq, rfl⟩ := List.mem_map.mp hx2
        exact (hbond_pairs_mem hpq).2
    · intro y hy
      rcases List.mem_append.mp hy with hy1 | hy2
      · rw [hd1] at hy1
        obtain ⟨pq, hpq, rfl⟩ := List.mem_map.mp hy1
        exact (hbond_pairs_mem hpq).2
      · rw [ha2] at hy2
        obtain ⟨pq, hpq, rfl⟩ := List.mem_map.mp hy2
        exact (hbond_pairs_mem hpq).1
    · intro p' q' s' h'
      obtain ⟨A1, D1, S1, A2, D2, S2, h12', h21', rfl, -, -⟩ := hbonds_some h'
      obtain ⟨hA1, hD1⟩ := hbond_AD_some_eq h12'
      obtain ⟨hA2, hD2⟩ := hbond_AD_some_eq h21'
      rw [ha1, hd2, hA1, hD2]
      simp only [List.length_append, List.length_map]
      exact Nat.add_comm _ _
  · intro p q s h
    obtain ⟨a1, d1, s1, a2, d2, s2, h12, h21, rfl, rfl, rfl⟩ := halogenbonds_some h
    obtain ⟨ha1, hd1⟩ := halogen_AH_some_eq h12
    obtain ⟨ha2, hd2⟩ := halogen_AH_some_eq h21
    refine ⟨?_, ?_, ?_⟩
    · intro x hx
      rcases List.mem_append.mp hx with hx1 | hx2
      · rw [ha1] at hx1
        obtain ⟨pq, hpq, rfl⟩ := List.mem_map.mp hx1
        exact (halogen_pairs_mem hpq).1
      · rw [hd2] at hx2
        obtain ⟨pq, hpq, rfl⟩ := List.mem_map.mp hx2
        exact (halogen_pairs_mem hpq).2
    · intro y hy
      rcases List.mem_append.mp hy with hy1 | hy2
      · rw [hd1] at hy1
        obtain ⟨pq, hpq, rfl⟩ := List.mem_map.mp hy1
        exact (halogen_pairs_mem hpq).2
      · rw [ha2] at hy2
        obtain ⟨pq, hpq, rfl⟩ := List.mem_map.mp hy2
        exact (halogen_pairs_mem hpq).1
    · intro p' q' s' h'
      obtain ⟨A1, D1, S1, A2, D2, S2, h12', h21', rfl, -, -⟩ := halogenbonds_some h'
      obtain ⟨hA1, hD1⟩ := halogen_AH_some_eq h12'
      obtain ⟨hA2, hD2⟩ := halogen_AH_some_eq h21'
      rw [ha1, hd2, hA1, hD2]
      simp only [List.length_append, List.length_map]
      exact Nat.add_comm _ _
  · intro x hx
    simp only [salt_bridges, salt_bridge_plus_minus] at hx
    rcases List.mem_append.mp hx with hx1 | hx2
    · obtain ⟨pq, hpq, rfl⟩ := List.mem_map.mp hx1
      exact (salt_pairs_mem hpq).1
    · obtain ⟨pq, hpq, rfl⟩ := List.mem_map.mp hx2
      exact (salt_pairs_mem hpq).2
  · intro y hy
    simp only [salt_bridges, salt_bridge_plus_minus] at hy
    rcases List.mem_append.mp hy with hy1 | hy2
    · obtain ⟨pq, hpq, rfl⟩ := List.mem_map.mp hy1
      exact (salt_pairs_mem hpq).2
    · obtain ⟨pq, hpq, rfl⟩ := List.mem_map.mp hy2
      exact (salt_pairs_mem hpq).1
  · simp only [salt_bridges, salt_bridge_plus_minus, List.length_append,
      List.length_map]
    exact Nat.add_comm _ _

/-- Claim C6 witness: the scenario molecules, where the acceptor sits in mol1
and the donor in mol2 (the swapped direction contributes no pairs). -/
theorem c6_bidirectional_witness :
    hbonds distX (fun _ _ _ => some 179) molAcceptor molDonor 3.5 30 =
      some ([acAtom], [doAtom], [true]) ∧
    acAtom ∈ molAcceptor.atom_dict ∧
    ([acAtom] : List Atom).length = ([doAtom] : List Atom).length := by
  have hbig : hbonds distX (fun _ _ _ => some 179) molAcceptor molDonor 3.5 30 =
      some ([acAtom], [doAtom], [true]) := by
    norm_num [hbonds, hbond_acceptor_donor, hbond_pairs, close_contacts, distX,
      molAcceptor, molDonor, acAtom, doAtom, check_angles, takeIdeals, checkRow,
      nan_to_num, BASE_ANGLES, neighbor_angles, List.filterMap_cons,
      List.filterMap_nil]
  have hswap : hbonds distX (fun _ _ _ => some 179) molDonor molAcceptor 3.5 30 =
      some ([doAtom], [acAtom], [true]) := by
    norm_num [hbonds, hbond_acceptor_donor, hbond_pairs, close_contacts, distX,
      molAcceptor, molDonor, acAtom, doAtom, check_angles, takeIdeals, checkRow,
      nan_to_num, BASE_ANGLES, neighbor_angles, List.filterMap_cons,
      List.filterMap_nil]
  have h := (c6_bidirectional distX (fun _ _ _ => some 179) molAcceptor molDonor
    3.5 30).1 [acAtom] [doAtom] [true] hbig
  exact ⟨hbig, h.1 acAtom (by simp), h.2.2 [doAtom] [acAtom] [true] hswap⟩

end Oddt
